import Mathlib

/-!
Verification of `src/utilities/python/network_analyzer.py` (Script-Vault).

The Python program is sequential and effectful; we embed it shallowly:
every network/OS interaction (subprocess ping, `socket.connect_ex`,
`socket.gethostbyname`) is a parameter describing the *outcome* the
runtime call produced — either a normal return value or a raised
exception — and each Python function becomes a total Lean function of
those outcomes, mirroring its control flow statement by statement.
Machine-level details (string formatting of the report, timestamps) that
no claim touches are kept as structured values.
-/

namespace NetworkAnalyzer

/-- Outcome of a Python runtime call: a normal return value, or a raised
exception carrying its message. -/
inductive PyOutcome (α : Type) where
  | ok (val : α)
  | exc (msg : String)
deriving DecidableEq

/-- Embeds `NetworkAnalyzer.ping_host` (network_analyzer.py, lines 23-43).
The `subprocess.run` call either returns `(returncode, stdout)` or raises
(e.g. `subprocess.TimeoutExpired`); the Python body returns
`(result.returncode == 0, result.stdout)` on the normal path and, via
`except Exception as e: return False, str(e)`, the pair `(False, str(e))`
on the exceptional path. -/
def ping_host (run : PyOutcome (Int × String)) : Bool × String :=
  match run with
  | .ok (rc, out) => (rc == 0, out)
  | .exc e => (false, e)

/-- Embeds `NetworkAnalyzer.scan_port` (lines 45-55). The
`sock.connect_ex((host, port))` call either returns an error indicator
(`0` = connected; a nonzero errno such as `ECONNREFUSED`, or
`EWOULDBLOCK` when the socket timeout elapses) or raises an exception
(e.g. `socket.gaierror` for a name-resolution failure, which
`connect_ex` does not convert to a code). The body returns
`result == 0`; the `except Exception` branch prints and returns `False`. -/
def scan_port (connect : PyOutcome Int) : Bool :=
  match connect with
  | .ok r => r == 0
  | .exc _ => false

/-- Socket lifecycle events, used to trace resource release in
`scan_port`. -/
inductive SockEvent where
  | opened
  | closed
deriving DecidableEq

/-- `scan_port` (lines 45-55) again, now also recording the socket
lifecycle events its execution emits. `socket.socket(...)` (line 48)
emits `opened`; `sock.close()` (line 51) emits `closed`, but that line
is reached only when `connect_ex` returns normally: when `connect_ex`
raises, control jumps straight to the `except` branch (lines 53-55),
which returns `False` without closing the socket. -/
def scan_port_trace (connect : PyOutcome Int) : Bool × List SockEvent :=
  match connect with
  | .ok r => (r == 0, [SockEvent.opened, SockEvent.closed])
  | .exc _ => (false, [SockEvent.opened])

/-- Embeds `NetworkAnalyzer.scan_port_range` (lines 57-67): loops over
`ports` in order and appends a port to `open_ports` exactly when
`scan_port` reports it open. `net host port` is the outcome of the
`connect_ex` call for that pair. -/
def scan_port_range (net : String → Int → PyOutcome Int) (host : String) :
    List Int → List Int
  | [] => []
  | p :: rest =>
      if scan_port (net host p) then p :: scan_port_range net host rest
      else scan_port_range net host rest

/-- Embeds `NetworkAnalyzer.ping_sweep` (lines 69-82): loops over the
expanded host list in order and appends a host to `reachable_hosts`
exactly when `ping_host(ip_str, count=1)` reports success. `ping h` is
the outcome of the subprocess call for host `h`. -/
def ping_sweep (ping : String → PyOutcome (Int × String)) :
    List String → List String
  | [] => []
  | h :: rest =>
      if (ping_host (ping h)).1 then h :: ping_sweep ping rest
      else ping_sweep ping rest

/-- Outcome of the `socket.gethostbyname` call in `resolve_dns`: a
resolved address, or a raised `socket.gaierror` carrying its error code
and message. On Linux the code is `EAI_NONAME = -2` for a name that does
not resolve and `EAI_AGAIN = -3` for a temporary transport-level
resolver failure; both are instances of the same `gaierror` class. -/
inductive DnsOutcome where
  | ok (ip : String)
  | gaierror (code : Int) (msg : String)
deriving DecidableEq

/-- Embeds `NetworkAnalyzer.resolve_dns` (lines 84-90): returns the
address on success and, via `except socket.gaierror: return None`, the
value `None` on any `gaierror`, whatever its code. -/
def resolve_dns (lookup : DnsOutcome) : Option String :=
  match lookup with
  | .ok ip => some ip
  | .gaierror _ _ => none

/-- The result-log entries `main` appends to `analyzer.results`
(lines 126, 138, 151): a ping entry carries `'reachable'`, a sweep entry
carries the *count* of found hosts under the key `'hosts'`, and a scan
entry carries the open-port list. -/
inductive Entry where
  | ping (host : String) (reachable : Bool)
  | sweep (network : String) (hostsFound : Nat)
  | scan (host : String) (openPorts : List Int)
deriving DecidableEq

/-- `r.get('reachable')` on a log entry: only ping entries carry the
`'reachable'` key; sweep and scan entries yield `None`. -/
def getReachable : Entry → Option Bool
  | .ping _ r => some r
  | .sweep _ _ => none
  | .scan _ _ => none

/-- Python truthiness of `r.get('reachable')`: `None` and `False` are
falsy, `True` is truthy. -/
def reachableTruthy (e : Entry) : Bool :=
  (getReachable e).getD false

/-- The summary data rendered by `get_report` (lines 92-107): the two
counts of its `## Summary` section and the result list echoed in its
`## Results` section (the timestamp header carries no result data and is
not modelled). -/
structure Report where
  scansCompleted : Nat
  hostsReached : Nat
  resultsList : List Entry
deriving DecidableEq

/-- Embeds `NetworkAnalyzer.get_report` (lines 92-107):
`len(self.results)` scans completed,
`sum(1 for r in self.results if r.get('reachable'))` hosts reached, and
the per-entry lines of the `## Results` section. -/
def get_report (results : List Entry) : Report :=
  { scansCompleted := results.length
    hostsReached := results.countP reachableTruthy
    resultsList := results }

/-! ### Port-specification parsing (`main`, lines 140-147)

`main` parses `--ports` with no validation: `'-' in spec` selects
`start, end = map(int, spec.split('-')); ports = range(start, end + 1)`,
otherwise `ports = [int(p) for p in spec.split(',')]`. A non-numeric
token makes `int` raise `ValueError`; a dash expression with more than
two parts makes the unpacking raise `ValueError`; nothing else is
rejected. We model `str.split` and `int()` on character lists so the
definitions evaluate in the kernel. -/

/-- Python `str.split(sep)` with an explicit one-character separator:
keeps empty parts, and splitting the empty string yields `[""]`. -/
def splitOnChar (sep : Char) : List Char → List (List Char)
  | [] => [[]]
  | c :: rest =>
      let r := splitOnChar sep rest
      if c = sep then [] :: r
      else
        match r with
        | [] => [[c]]
        | h :: t => (c :: h) :: t

/-- Value of an ASCII digit character. -/
def digitVal (c : Char) : Nat := c.toNat - '0'.toNat

/-- Numeric value of a digit run, most significant digit first. -/
def digitsToNat (l : List Char) : Nat :=
  l.foldl (fun n c => 10 * n + digitVal c) 0

/-- Python `int()` on a string, as a character list: strips surrounding
whitespace, allows one optional sign, then requires a nonempty run of
decimal digits; anything else raises `ValueError` (`none` here).
(Underscore digit grouping and non-ASCII digits are not modelled; no
input in this development uses them.) -/
def pyInt (l : List Char) : Option Int :=
  let t := ((l.dropWhile Char.isWhitespace).reverse.dropWhile
    Char.isWhitespace).reverse
  match t with
  | '-' :: rest =>
      if rest ≠ [] ∧ rest.all Char.isDigit then
        some (-(digitsToNat rest : Int))
      else none
  | '+' :: rest =>
      if rest ≠ [] ∧ rest.all Char.isDigit then
        some (digitsToNat rest : Int)
      else none
  | _ =>
      if t ≠ [] ∧ t.all Char.isDigit then some (digitsToNat t : Int)
      else none

/-- Python `range(start, stop)` materialised: `start, start+1, ...,
stop-1`; empty when `stop ≤ start`. -/
def pyRange (start stop : Int) : List Int :=
  (List.range (stop - start).toNat).map (fun i => start + i)

/-- `int` applied to every token of a comma list; `none` as soon as one
token is rejected (the list comprehension raises at that token). -/
def mapPyInt : List (List Char) → Option (List Int)
  | [] => some []
  | t :: ts =>
      match pyInt t with
      | none => none
      | some v => (mapPyInt ts).map (fun l => v :: l)

/-- Embeds the port-specification parsing of `main` (lines 142-147).
`.error` is a raised `ValueError` escaping `main`; `.ok` is the concrete
port sequence handed to `scan_port_range`. -/
def expand_ports (spec : String) : Except String (List Int) :=
  if spec.data.contains '-' then
    match splitOnChar '-' spec.data with
    | [a, b] =>
        match pyInt a, pyInt b with
        | some s, some e => .ok (pyRange s (e + 1))
        | _, _ => .error "ValueError: invalid literal for int() with base 10"
    | _ => .error "ValueError: too many values to unpack"
  else
    match mapPyInt (splitOnChar ',' spec.data) with
    | some l => .ok l
    | none => .error "ValueError: invalid literal for int() with base 10"

/-- True when `expand_ports` raises. -/
def expandFails (spec : String) : Bool :=
  match expand_ports spec with
  | .error _ => true
  | .ok _ => false

/-- The spec's words for when port expansion must fail
(`InvalidPortSpecError`): a token is non-numeric, a dash range's start
exceeds its end, or some value falls outside `[1, 65535]`. Written from
the specification, for comparison with `expand_ports` above. -/
def specPortSpecInvalid (spec : String) : Bool :=
  if spec.data.contains '-' then
    match splitOnChar '-' spec.data with
    | [a, b] =>
        match pyInt a, pyInt b with
        | some s, some e => e < s || s < 1 || 65535 < e
        | _, _ => true
    | _ => true
  else
    (splitOnChar ',' spec.data).any (fun t =>
      match pyInt t with
      | none => true
      | some v => v < 1 || 65535 < v)

/-- The condition under which `expand_ports` actually fails: a token
fails Python int parsing, or a dash expression does not split into
exactly two parts. -/
def specTokenNonNumeric (spec : String) : Bool :=
  if spec.data.contains '-' then
    match splitOnChar '-' spec.data with
    | [a, b] => (pyInt a).isNone || (pyInt b).isNone
    | _ => true
  else
    (splitOnChar ',' spec.data).any (fun t => (pyInt t).isNone)

/-! ### CIDR host expansion (`ping_sweep`, line 74)

`ping_sweep` iterates `ip_network(network, strict=False).hosts()`. We
embed the documented semantics of the stdlib `ipaddress` generator for
IPv4, on numeric addresses: for a network address `netAddr` (host bits
zero) with prefix length `plen`, `hosts()` yields
`range(network + 1, broadcast)` — every address strictly between the
network and broadcast addresses — except that a `/31` yields both of its
two addresses and a `/32` yields its single address. -/

/-- Broadcast address of an IPv4 block: network address plus block size
minus one. -/
def broadcastAddr (netAddr plen : Nat) : Nat :=
  netAddr + 2 ^ (32 - plen) - 1

/-- `ip_network(...).hosts()` for IPv4, materialised in ascending order. -/
def hostsOf (netAddr plen : Nat) : List Nat :=
  if plen = 32 then [netAddr]
  else if plen = 31 then [netAddr, netAddr + 1]
  else (List.range (2 ^ (32 - plen) - 2)).map (fun i => netAddr + 1 + i)

/-! ### The analyzer object and its session log

`NetworkAnalyzer.__init__` sets `self.results = []`; the five diagnostic
methods (lines 23-90) never read or write `self.results` — only `main`
(lines 126, 138, 151) appends to it. Each method is embedded as a
function of the analyzer state returning its value together with the
state after the call, translated from the method body. -/

structure Analyzer where
  results : List Entry
deriving DecidableEq

/-- `ping_host` as a method call on `self`: its body (lines 23-43) never
mentions `self.results`. -/
def Analyzer.pingHostM (a : Analyzer) (run : PyOutcome (Int × String)) :
    (Bool × String) × Analyzer :=
  (ping_host run, a)

/-- `scan_port` as a method call on `self` (lines 45-55). -/
def Analyzer.scanPortM (a : Analyzer) (connect : PyOutcome Int) :
    Bool × Analyzer :=
  (scan_port connect, a)

/-- `scan_port_range` as a method call on `self` (lines 57-67): it calls
`self.scan_port` per port and touches only its local `open_ports`. -/
def Analyzer.scanPortRangeM (a : Analyzer) (net : String → Int → PyOutcome Int)
    (host : String) (ports : List Int) : List Int × Analyzer :=
  (scan_port_range net host ports, a)

/-- `ping_sweep` as a method call on `self` (lines 69-82): it calls
`self.ping_host` per host and touches only its local `reachable_hosts`. -/
def Analyzer.pingSweepM (a : Analyzer) (ping : String → PyOutcome (Int × String))
    (hosts : List String) : List String × Analyzer :=
  (ping_sweep ping hosts, a)

/-- `resolve_dns` as a method call on `self` (lines 84-90). -/
def Analyzer.resolveDnsM (a : Analyzer) (lookup : DnsOutcome) :
    Option String × Analyzer :=
  (resolve_dns lookup, a)

/-- The scan branch of `main` (lines 140-151): runs the scan and appends
the scan entry to `analyzer.results` — the append happens in the caller
layer, not in the analyzer's methods. -/
def mainScanBranch (a : Analyzer) (net : String → Int → PyOutcome Int)
    (host : String) (ports : List Int) : Analyzer :=
  let st := a.scanPortRangeM net host ports
  { results := st.2.results ++ [Entry.scan host st.1] }

/-! ## Claim theorems -/

/-- Helper: the comma-list comprehension raises exactly when some token
fails int parsing. -/
theorem mapPyInt_none_iff {ts : List (List Char)} :
    mapPyInt ts = none ↔ (ts.any fun t => (pyInt t).isNone) = true := by
  induction ts with
  | nil => simp [mapPyInt]
  | cons t rest ih =>
      rcases h : pyInt t with _ | v
      · simp [mapPyInt, h]
      · simp [mapPyInt, h, Option.map_eq_none', ih]

/-- C1, counterexample: the claim says a scan of spec 100-102 against a
host with only port 101 open returns three results, one per port, each
with its open/closed verdict. The code's `scan_port_range` returns only
the list of open ports (`open_ports`), so it returns the single element
101 — not three results. The oracle returns `connect_ex = 0` for
port 101 and `ECONNREFUSED = 111` for every other port. -/
theorem scan_returns_only_open_ports_cex :
    scan_port_range
        (fun _ p => if p = 101 then PyOutcome.ok 0 else PyOutcome.ok 111)
        "host" [100, 101, 102] = [101] ∧
    ¬ (scan_port_range
        (fun _ p => if p = 101 then PyOutcome.ok 0 else PyOutcome.ok 111)
        "host" [100, 101, 102]).length = 3 := by
  constructor
  · rfl
  · decide

/-- C1, amended: for every host and port specification, the scan returns
exactly the ports whose probe reported open, in the specification's
order, duplicates preserved and not deduplicated; closed ports produce
no result (the open/closed verdict is carried only implicitly, by
presence in the returned list). -/
theorem scan_port_range_is_ordered_filter
    (net : String → Int → PyOutcome Int) (host : String) (ports : List Int) :
    scan_port_range net host ports =
      ports.filter (fun p => scan_port (net host p)) := by
  induction ports with
  | nil => rfl
  | cons p rest ih =>
      by_cases h : scan_port (net host p)
      · simp [scan_port_range, h, ih, List.filter_cons]
      · simp [scan_port_range, h, ih, List.filter_cons]

/-- C2, counterexample: the claim says every probe failure is returned
as a non-success result carrying an error detail. The TCP probe
(`scan_port`) returns a bare boolean: a timed-out connection
(`connect_ex` returns `ETIMEDOUT = 110`) and a name-resolution failure
(`connect_ex` raises `gaierror`) both yield the identical value
`False`, so no function can recover from the result which failure mode
occurred — the result carries no error detail. -/
theorem tcp_probe_result_carries_no_error_detail :
    ¬ ∃ f : Bool → Option String,
        f (scan_port (.ok 110)) = some "timeout" ∧
        f (scan_port (.exc "gaierror: Name or service not known")) =
          some "name resolution failure" := by
  rintro ⟨f, h1, h2⟩
  have e1 : scan_port (.ok 110) = false := rfl
  have e2 : scan_port (.exc "gaierror: Name or service not known") = false :=
    rfl
  rw [e1] at h1
  rw [e2] at h2
  rw [h1] at h2
  exact absurd (Option.some.inj h2) (by decide)

/-- C2, amended: neither probe ever raises — every exceptional outcome
of the underlying call is absorbed: the ping probe returns non-success
together with the error string as its detail, and the TCP probe returns
non-success (closed) with no error detail in the result. -/
theorem probe_failures_return_nonsuccess (e : String) :
    ping_host (.exc e) = (false, e) ∧ scan_port (.exc e) = false :=
  ⟨rfl, rfl⟩

/-- C2, witness for the amended theorem at a concrete error string. -/
theorem probe_failures_return_nonsuccess_witness :
    ping_host (.exc "timeout") = (false, "timeout") ∧
      scan_port (.exc "timeout") = false :=
  probe_failures_return_nonsuccess "timeout"

/-- C3, counterexample: the claim says expansion fails when a dash
range's start exceeds its end; the code performs no such check —
`range(7, 3 + 1)` is simply empty, so spec "7-3" succeeds with the
empty port list even though the spec-side invalidity predicate (written
from the claim's words) flags it. -/
theorem inverted_range_not_rejected :
    expand_ports "7-3" = .ok [] ∧ specPortSpecInvalid "7-3" = true :=
  ⟨rfl, rfl⟩

/-- C3, amended: port expansion fails (with an uncaught ValueError, not
an InvalidPortSpecError) exactly when some token fails Python int
parsing or a dash expression does not split into exactly two parts; a
dash range whose start exceeds its end yields the empty sequence without
error, and values outside [1, 65535] are accepted unvalidated. -/
theorem expand_ports_fails_iff_bad_token :
    (∀ s : String, expandFails s = true ↔ specTokenNonNumeric s = true) ∧
    expand_ports "7-3" = .ok [] ∧
    expand_ports "70000" = .ok [70000] := by
  refine ⟨fun s => ?_, rfl, rfl⟩
  unfold expandFails expand_ports specTokenNonNumeric
  by_cases hc : s.data.contains '-'
  · simp only [hc, if_true]
    rcases splitOnChar '-' s.data with _ | ⟨a, _ | ⟨b, rest⟩⟩
    · simp
    · simp
    · rcases rest with _ | ⟨c, rest⟩
      · rcases ha : pyInt a with _ | va <;> rcases hb : pyInt b with _ | vb <;>
          simp [ha, hb]
      · simp
  · simp only [if_neg hc]
    rcases hm : mapPyInt (splitOnChar ',' s.data) with _ | l
    · constructor
      · intro _
        exact mapPyInt_none_iff.mp hm
      · intro _
        rfl
    · constructor
      · intro h
        exact Bool.noConfusion h
      · intro h
        rw [mapPyInt_none_iff.mpr h] at hm
        exact Option.noConfusion hm

/-- C4: for every sweep, the returned sequence lists its hosts in the
input target order — it equals the in-order filter of the expanded host
list by reachability, hence is an order-preserving sublist of the input
targets. (The source loop is sequential, so completion order coincides
with issue order and can never permute results.) -/
theorem sweep_preserves_target_order
    (ping : String → PyOutcome (Int × String)) (hosts : List String) :
    ping_sweep ping hosts =
        hosts.filter (fun h => (ping_host (ping h)).1) ∧
    (ping_sweep ping hosts).Sublist hosts := by
  have hf : ping_sweep ping hosts =
      hosts.filter (fun h => (ping_host (ping h)).1) := by
    induction hosts with
    | nil => rfl
    | cons h rest ih =>
        by_cases hp : (ping_host (ping h)).1
        · simp [ping_sweep, hp, ih, List.filter_cons]
        · simp [ping_sweep, hp, ih, List.filter_cons]
  exact ⟨hf, hf ▸ List.filter_sublist hosts⟩

/-- C5, counterexample: the claim says a name that does not resolve
(gaierror EAI_NONAME, code -2 on Linux) yields a normal negative
outcome while a transport-level resolver failure (gaierror EAI_AGAIN,
code -3) yields a classified ResolverFailure. The code's single
`except socket.gaierror: return None` maps both to the identical value
`None` — the two cases are indistinguishable in the result. -/
theorem dns_transport_failure_indistinct :
    resolve_dns (.gaierror (-2) "Name or service not known") =
      resolve_dns (.gaierror (-3) "Temporary failure in name resolution") ∧
    resolve_dns (.gaierror (-3) "Temporary failure in name resolution") =
      none :=
  ⟨rfl, rfl⟩

/-- C5, amended: DNS resolution returns the address on success and
`None` on every `gaierror`, whatever its code and message — not-found
and transport-level resolver failures are returned uniformly, with no
ResolverFailure classification. -/
theorem resolve_dns_uniform_none :
    (∀ ip, resolve_dns (.ok ip) = some ip) ∧
    (∀ code msg, resolve_dns (.gaierror code msg) = none) :=
  ⟨fun _ => rfl, fun _ _ => rfl⟩

/-- C6, counterexample: the claim says the probe's socket is released on
every exit path. When `connect_ex` raises (e.g. a name-resolution
`gaierror`), control jumps to the `except` branch, which returns without
executing `sock.close()` — the trace of that execution opens the socket
and never closes it. -/
theorem socket_leak_on_exception_path :
    (scan_port_trace (.exc "gaierror: Name or service not known")).2 =
      [SockEvent.opened] ∧
    SockEvent.closed ∉
      (scan_port_trace (.exc "gaierror: Name or service not known")).2 := by
  constructor
  · rfl
  · decide

/-- C6, amended: the socket is closed on every path on which
`connect_ex` returns an error indicator — which includes the timeout
path and refused/unreachable connections, all reported as codes — but
not on the path where `connect_ex` raises, where the socket is opened
and never closed. -/
theorem socket_closed_iff_no_exception :
    (∀ r : Int, (scan_port_trace (.ok r)).2 =
      [SockEvent.opened, SockEvent.closed]) ∧
    (∀ e : String, SockEvent.closed ∉ (scan_port_trace (.exc e)).2) := by
  refine ⟨fun r => rfl, fun e => ?_⟩
  simp [scan_port_trace]

/-- C7: the summary counts are a fold over the recorded log, but hosts
found reachable by a sweep do not contribute to the reachable-host
count: a sweep entry stores the found-host count under the key
`'hosts'`, while the summary counts entries whose `'reachable'` key is
truthy — a key sweep entries lack. A log holding one sweep entry that
found 2 reachable hosts reports `Hosts reached: 0`. -/
theorem sweep_hosts_not_counted_in_report :
    (get_report [Entry.sweep "192.168.1.0/30" 2]).hostsReached = 0 ∧
    (get_report [Entry.sweep "192.168.1.0/30" 2]).scansCompleted = 1 :=
  ⟨rfl, rfl⟩

/-- C8, counterexample: the claim says network expansion excludes the
network and broadcast addresses for every valid CIDR input. For the
valid block 0.0.0.0/31, the stdlib `hosts()` yields both of the block's
addresses: the network address (0) and the broadcast address (1) are
both members of the returned list. -/
theorem network_address_in_slash31_hosts :
    hostsOf 0 31 = [0, 1] ∧ 0 ∈ hostsOf 0 31 ∧
      broadcastAddr 0 31 ∈ hostsOf 0 31 := by
  refine ⟨rfl, ?_, ?_⟩ <;> decide

/-- C8, amended: for IPv4 prefixes at most 30, network expansion returns
the block's usable hosts in strictly ascending numeric order, excludes
the network and broadcast addresses, and returns exactly
2^(32-prefix) - 2 addresses; a /31 returns both of its addresses and a
/32 its single address (both still ascending). -/
theorem hosts_enumeration_correct (netAddr plen : Nat) (h : plen ≤ 30) :
    (hostsOf netAddr plen).length = 2 ^ (32 - plen) - 2 ∧
    List.Pairwise (· < ·) (hostsOf netAddr plen) ∧
    netAddr ∉ hostsOf netAddr plen ∧
    broadcastAddr netAddr plen ∉ hostsOf netAddr plen ∧
    (∀ m, hostsOf m 31 = [m, m + 1]) ∧
    (∀ m, hostsOf m 32 = [m]) := by
  have h32 : plen ≠ 32 := by omega
  have h31 : plen ≠ 31 := by omega
  have hpow : 4 ≤ 2 ^ (32 - plen) := by
    calc 4 = 2 ^ 2 := by norm_num
    _ ≤ 2 ^ (32 - plen) := Nat.pow_le_pow_right (by norm_num) (by omega)
  have hdef : hostsOf netAddr plen =
      (List.range (2 ^ (32 - plen) - 2)).map (fun i => netAddr + 1 + i) := by
    simp [hostsOf, h32, h31]
  refine ⟨?_, ?_, ?_, ?_, fun m => rfl, fun m => rfl⟩
  · rw [hdef]
    simp
  · rw [hdef]
    rw [List.pairwise_map]
    exact (List.pairwise_lt_range _).imp (by omega)
  · rw [hdef]
    simp only [List.mem_map, List.mem_range, not_exists]
    intro i
    omega
  · rw [hdef]
    simp only [List.mem_map, List.mem_range, not_exists, broadcastAddr]
    intro i
    omega

/-- C8, witness for the amended theorem at the concrete block
192.168.1.0/30 (network address 3232235776). -/
theorem hosts_enumeration_correct_witness :
    30 ≤ 30 ∧
    ((hostsOf 3232235776 30).length = 2 ^ (32 - 30) - 2 ∧
    List.Pairwise (· < ·) (hostsOf 3232235776 30) ∧
    3232235776 ∉ hostsOf 3232235776 30 ∧
    broadcastAddr 3232235776 30 ∉ hostsOf 3232235776 30 ∧
    (∀ m, hostsOf m 31 = [m, m + 1]) ∧
    (∀ m, hostsOf m 32 = [m])) :=
  ⟨by decide, hosts_enumeration_correct 3232235776 30 (by decide)⟩

/-- C9: producing the report from an empty session log succeeds and
yields zero scans completed, zero hosts reached, and an empty result
list. -/
theorem empty_report_zero_counts :
    get_report [] =
      { scansCompleted := 0, hostsReached := 0, resultsList := [] } :=
  rfl

/-- C10: every diagnostic method of the analyzer — single-host ping,
single-port probe, port-range scan, ping sweep, DNS resolution — leaves
the session result log exactly as it found it; only the caller layer
(here, the scan branch of `main`) appends entries to the log. -/
theorem probe_ops_leave_log_unchanged (a : Analyzer)
    (run : PyOutcome (Int × String)) (connect : PyOutcome Int)
    (net : String → Int → PyOutcome Int) (host : String) (ports : List Int)
    (ping : String → PyOutcome (Int × String)) (hosts : List String)
    (lookup : DnsOutcome) :
    (a.pingHostM run).2 = a ∧
    (a.scanPortM connect).2 = a ∧
    (a.scanPortRangeM net host ports).2 = a ∧
    (a.pingSweepM ping hosts).2 = a ∧
    (a.resolveDnsM lookup).2 = a ∧
    (mainScanBranch a net host ports).results =
      a.results ++ [Entry.scan host (scan_port_range net host ports)] :=
  ⟨rfl, rfl, rfl, rfl, rfl, rfl⟩

end NetworkAnalyzer
